import Mathlib

/-!
# Verification of the FLC predictor (src/bin/FLD.py)

A shallow embedding of the `FLCPredictor` class from `src/bin/FLD.py`.
Python floats are modelled as real numbers, `x ** y` on positive bases as
`Real.rpow`, `np.sqrt` as `Real.sqrt`, `np.floor`/`np.ceil` as `Int.floor`/
`Int.ceil`, and `np.linspace(a, b, n)` as the list `a + i*(b-a)/(n-1)` for
`i = 0 .. n-1` (numpy pins the final sample to `b`, which over ℝ coincides
with the formula at `i = n-1`).  The constructor and the four point formulas
are translated line by line from the source.
-/

namespace FLD

noncomputable section

/-- A strain point as returned by the point formulas: the dict
`{'eps2': _, 'eps1': _}` of minor and major engineering strain. -/
structure StrainPoint where
  eps2 : ℝ
  eps1 : ℝ

/-- Embedding of `FLCPredictor.calculate_TE_point` (src/bin/FLD.py lines 35-49). -/
def calculate_TE_point (A80 r t : ℝ) : StrainPoint :=
  let term_A := 0.0626 * A80 ^ (0.567 : ℝ)
  let term_t := (t - 1) * (0.12 - 0.0024 * A80)
  let SVL_t := term_A + term_t
  let strain_rat := 0.797 * r ^ (0.701 : ℝ)
  let denominator := Real.sqrt (1 + strain_rat ^ 2)
  ⟨-SVL_t * strain_rat / denominator, (1 + strain_rat) * SVL_t / denominator⟩

/-- The intermediate `eps3_TE = -SVL_t / denominator` computed inside
`calculate_TE_point` (src/bin/FLD.py line 45) but not returned with the point. -/
def TE_eps3 (A80 r t : ℝ) : ℝ :=
  let term_A := 0.0626 * A80 ^ (0.567 : ℝ)
  let term_t := (t - 1) * (0.12 - 0.0024 * A80)
  let SVL_t := term_A + term_t
  let strain_rat := 0.797 * r ^ (0.701 : ℝ)
  let denominator := Real.sqrt (1 + strain_rat ^ 2)
  let eps3_TE := -SVL_t / denominator
  eps3_TE

/-- Embedding of `FLCPredictor.calculate_PS_point` (src/bin/FLD.py lines 51-56). -/
def calculate_PS_point (A80 t : ℝ) : StrainPoint :=
  ⟨0, 0.0084 * A80 + 0.0017 * A80 * (t - 1)⟩

/-- Embedding of `FLCPredictor.calculate_BI_point` (src/bin/FLD.py lines 58-72).
The Python parameter `A80min=None` together with the body line
`A80min = A80min or A80` is modelled by an `Option ℝ` argument: `None` and the
falsy float `0` both fall back to `A80`. -/
def calculate_BI_point (A80 t : ℝ) (A80min : Option ℝ) : StrainPoint :=
  let A80m := match A80min with
    | none => A80
    | some x => if x = 0 then A80 else x
  let eps1_BI_1mm := 0.005 * A80m + 0.25
  let t_trans := 1.5 - (0.00215 * A80m) / (0.6 + 0.00285 * A80m)
  let eps1_BI := if t ≤ t_trans then 0.00215 * A80m + 0.25 + 0.00285 * A80m * t
    else eps1_BI_1mm
  ⟨eps1_BI, eps1_BI⟩

/-- Embedding of `FLCPredictor.calculate_IM_point` (src/bin/FLD.py lines 74-86). -/
def calculate_IM_point (A80 t : ℝ) : StrainPoint :=
  let t_trans := 1.5 - (0.00215 * A80) / (0.6 + 0.00285 * A80)
  let base_eps_IM1 := 0.0062 * A80 + 0.18
  let eps1_IM := if t ≤ t_trans then 0.0062 * A80 + 0.18 + 0.0027 * A80 * (t - 1)
    else base_eps_IM1
  ⟨0.75 * eps1_IM, eps1_IM⟩

/-- The model object: the fields stored on `self` by `FLCPredictor.__init__`
together with the four points computed eagerly by `_calculate_all_points`. -/
structure FLCPredictor where
  A80 : ℝ
  r0 : ℝ
  r45 : ℝ
  r90 : ℝ
  r : ℝ
  t : ℝ
  A80min : ℝ
  TE : StrainPoint
  PS : StrainPoint
  IM : StrainPoint
  BI : StrainPoint

/-- Embedding of `FLCPredictor.__init__` followed by `_calculate_all_points`
(src/bin/FLD.py lines 7-33).  `self.A80min = A80min if A80min is not None
else A80` is the explicit `None`-check; the body performs no input validation
of any kind, so construction is a total function. -/
def FLCPredictor.init (A80 r0 r45 r90 t : ℝ) (A80min : Option ℝ) : FLCPredictor :=
  let r := (r0 + 2 * r45 + r90) / 4
  let A80minEff := match A80min with
    | some v => v
    | none => A80
  ⟨A80, r0, r45, r90, r, t, A80minEff,
    calculate_TE_point A80 r t,
    calculate_PS_point A80 t,
    calculate_IM_point A80 t,
    calculate_BI_point A80 t (some A80minEff)⟩

/-- Embedding of `FLCPredictor.get_FLC_points` (src/bin/FLD.py lines 88-95):
the returned dict, as an association list in its literal key order. -/
def get_FLC_points (self : FLCPredictor) : List (String × (ℝ × ℝ)) :=
  [("TE", (self.TE.eps2, self.TE.eps1)),
   ("PS", (self.PS.eps2, self.PS.eps1)),
   ("IM", (self.IM.eps2, self.IM.eps1)),
   ("BI", (self.BI.eps2, self.BI.eps1))]

/-- The method call `model.get_FLC_points()` as a state transformer: result
value paired with the post-call state of the receiver.  The method body only
reads `self` and builds a fresh dict, so the post-call state is the receiver
unchanged. -/
def get_FLC_pointsS (self : FLCPredictor) : List (String × (ℝ × ℝ)) × FLCPredictor :=
  (get_FLC_points self, self)

/-- Embedding of `FLCPredictor.round_down_to_nearest_tenth`
(src/bin/FLD.py lines 97-99): `np.floor(x * 10) / 10`. -/
def round_down_to_nearest_tenth (x : ℝ) : ℝ := (⌊x * 10⌋ : ℝ) / 10

/-- Embedding of `FLCPredictor.round_up_to_nearest_tenth`
(src/bin/FLD.py lines 101-103): `np.ceil(x * 10) / 10`. -/
def round_up_to_nearest_tenth (x : ℝ) : ℝ := (⌈x * 10⌉ : ℝ) / 10

/-- Embedding of `np.linspace(start, stop, n)` (endpoint=True): `n` evenly
spaced samples from `start` to `stop`. -/
def linspace (start stop : ℝ) (n : ℕ) : List ℝ :=
  (List.range n).map (fun i : ℕ => start + (i : ℝ) * (stop - start) / ((n : ℝ) - 1))

/-- Embedding of `FLCPredictor.extrapolate_FLC_dynamically`
(src/bin/FLD.py lines 105-131) for a 4-point input, where the indices
`[0], [1], [-2], [-1]` are positions `0, 1, 2, 3`:
`(x0, y0) = TE`, `(x1, y1) = PS`, `(x2, y2) = IM`, `(x3, y3) = BI`.
Returns `((x_ext_left, y_ext_left), (x_ext_right, y_ext_right))`. -/
def extrapolate_FLC_dynamically (x0 y0 x1 y1 x2 y2 x3 y3 : ℝ) :
    (List ℝ × List ℝ) × (List ℝ × List ℝ) :=
  let slope_left := if x1 ≠ x0 then (y1 - y0) / (x1 - x0) else 0
  let intercept_left := y0 - slope_left * x0
  let left_limit := round_down_to_nearest_tenth x0 - 0.1
  let x_ext_left := linspace left_limit x0 50
  let y_ext_left := x_ext_left.map fun x => slope_left * x + intercept_left
  let slope_right := if x3 ≠ x2 then (y3 - y2) / (x3 - x2) else 0
  let intercept_right := y3 - slope_right * x3
  let right_limit := round_up_to_nearest_tenth x3 + 0.1
  let x_ext_right := linspace x3 right_limit 50
  let y_ext_right := x_ext_right.map fun x => slope_right * x + intercept_right
  ((x_ext_left, y_ext_left), (x_ext_right, y_ext_right))

/-- The input-validity predicate of the specification: all required inputs
`A80, r0, r45, r90, t` are positive reals (non-finite values do not exist
in ℝ). -/
def validInput (A80 r0 r45 r90 t : ℝ) : Prop :=
  0 < A80 ∧ 0 < r0 ∧ 0 < r45 ∧ 0 < r90 ∧ 0 < t

/-- The effective equibiaxial elongation used by the BI formula: the supplied
`A80min`, falling back to `A80` whenever it is absent or zero (composition of
the constructor's `None`-check with the body's falsy-`or` fallback). -/
def effectiveA80min (A80 : ℝ) (A80min : Option ℝ) : ℝ :=
  match A80min with
  | none => A80
  | some x => if x = 0 then A80 else x

/-- C1 counterexample: the constructor performs no validation.  At the invalid
input `t = -1` (all other inputs valid) the constructor completes normally and
produces a full model: the derived anisotropy and the PS point are computed
and the invalid thickness is stored, contradicting the claim that construction
raises `InvalidInput` and produces no model. -/
theorem C1_counterexample :
    ¬ validInput 40.8 1.769 1.661 2.225 (-1) ∧
    (FLCPredictor.init 40.8 1.769 1.661 2.225 (-1) none).r = 1.829 ∧
    (FLCPredictor.init 40.8 1.769 1.661 2.225 (-1) none).t = -1 ∧
    (FLCPredictor.init 40.8 1.769 1.661 2.225 (-1) none).PS.eps1 = 0.204 := by
  refine ⟨fun h => absurd h.2.2.2.2 (by norm_num), ?_, rfl, ?_⟩
  · show ((1.769 : ℝ) + 2 * 1.661 + 2.225) / 4 = 1.829
    norm_num
  · show (0.0084 : ℝ) * 40.8 + 0.0017 * 40.8 * (-1 - 1) = 0.204
    norm_num

/-- C1 amended: the constructor performs no input validation; even for inputs
violating the validity predicate it completes and yields the model with all
four points computed from the point formulas. -/
theorem C1_no_validation (A80 r0 r45 r90 t : ℝ) (mopt : Option ℝ)
    (h : ¬ validInput A80 r0 r45 r90 t) :
    (FLCPredictor.init A80 r0 r45 r90 t mopt).TE =
      calculate_TE_point A80 ((r0 + 2 * r45 + r90) / 4) t ∧
    (FLCPredictor.init A80 r0 r45 r90 t mopt).PS = calculate_PS_point A80 t ∧
    (FLCPredictor.init A80 r0 r45 r90 t mopt).IM = calculate_IM_point A80 t ∧
    (FLCPredictor.init A80 r0 r45 r90 t mopt).BI =
      calculate_BI_point A80 t (some (mopt.getD A80)) := by
  cases mopt <;> exact ⟨rfl, rfl, rfl, rfl⟩

/-- C1 amended, witness: at the invalid input `t = -1` the model is still
fully computed. -/
theorem C1_no_validation_witness :
    (FLCPredictor.init 40.8 1.769 1.661 2.225 (-1) none).TE =
      calculate_TE_point 40.8 ((1.769 + 2 * 1.661 + 2.225) / 4) (-1) ∧
    (FLCPredictor.init 40.8 1.769 1.661 2.225 (-1) none).PS =
      calculate_PS_point 40.8 (-1) ∧
    (FLCPredictor.init 40.8 1.769 1.661 2.225 (-1) none).IM =
      calculate_IM_point 40.8 (-1) ∧
    (FLCPredictor.init 40.8 1.769 1.661 2.225 (-1) none).BI =
      calculate_BI_point 40.8 (-1) (some 40.8) :=
  C1_no_validation 40.8 1.769 1.661 2.225 (-1) none
    (fun h => absurd h.2.2.2.2 (by norm_num))

/-- C2: for every valid input, the TE point is computed from the derived
anisotropy `r = (r0 + 2*r45 + r90)/4` as
`(eps2, eps1) = (-SVL*ratio/denom, (1+ratio)*SVL/denom)` with
`SVL = 0.0626*A80^0.567 + (t-1)*(0.12 - 0.0024*A80)`,
`ratio = 0.797*r^0.701` and `denom = sqrt(1 + ratio^2)`. -/
theorem C2_TE_formula (A80 r0 r45 r90 t : ℝ) (mopt : Option ℝ)
    (h : validInput A80 r0 r45 r90 t) :
    (FLCPredictor.init A80 r0 r45 r90 t mopt).TE =
      ⟨-(0.0626 * A80 ^ (0.567 : ℝ) + (t - 1) * (0.12 - 0.0024 * A80)) *
          (0.797 * ((r0 + 2 * r45 + r90) / 4) ^ (0.701 : ℝ)) /
          Real.sqrt (1 + (0.797 * ((r0 + 2 * r45 + r90) / 4) ^ (0.701 : ℝ)) ^ 2),
        (1 + 0.797 * ((r0 + 2 * r45 + r90) / 4) ^ (0.701 : ℝ)) *
          (0.0626 * A80 ^ (0.567 : ℝ) + (t - 1) * (0.12 - 0.0024 * A80)) /
          Real.sqrt (1 + (0.797 * ((r0 + 2 * r45 + r90) / 4) ^ (0.701 : ℝ)) ^ 2)⟩ :=
  rfl

/-- C2 witness: the TE formula at the reference input
`A80=40.8, r0=1.769, r45=1.661, r90=2.225, t=1.2`. -/
theorem C2_TE_formula_witness :
    (FLCPredictor.init 40.8 1.769 1.661 2.225 1.2 none).TE =
      ⟨-(0.0626 * (40.8 : ℝ) ^ (0.567 : ℝ) + (1.2 - 1) * (0.12 - 0.0024 * 40.8)) *
          (0.797 * ((1.769 + 2 * 1.661 + 2.225) / 4) ^ (0.701 : ℝ)) /
          Real.sqrt (1 + (0.797 * (((1.769 : ℝ) + 2 * 1.661 + 2.225) / 4) ^ (0.701 : ℝ)) ^ 2),
        (1 + 0.797 * (((1.769 : ℝ) + 2 * 1.661 + 2.225) / 4) ^ (0.701 : ℝ)) *
          (0.0626 * (40.8 : ℝ) ^ (0.567 : ℝ) + (1.2 - 1) * (0.12 - 0.0024 * 40.8)) /
          Real.sqrt (1 + (0.797 * (((1.769 : ℝ) + 2 * 1.661 + 2.225) / 4) ^ (0.701 : ℝ)) ^ 2)⟩ :=
  C2_TE_formula 40.8 1.769 1.661 2.225 1.2 none
    (by refine ⟨?_, ?_, ?_, ?_, ?_⟩ <;> norm_num)

/-- C4: for every valid input, `BI.eps1 = BI.eps2`, and `eps1` follows the
two-regime formula in the effective `A80min` (supplied value, falling back to
`A80` when absent or zero), with the boundary `t = t_trans` taking the
thin-sheet branch. -/
theorem C4_BI_point (A80 r0 r45 r90 t : ℝ) (mopt : Option ℝ)
    (h : validInput A80 r0 r45 r90 t) :
    (FLCPredictor.init A80 r0 r45 r90 t mopt).BI.eps1 =
      (FLCPredictor.init A80 r0 r45 r90 t mopt).BI.eps2 ∧
    (FLCPredictor.init A80 r0 r45 r90 t mopt).BI.eps1 =
      (if t ≤ 1.5 - (0.00215 * effectiveA80min A80 mopt) /
            (0.6 + 0.00285 * effectiveA80min A80 mopt)
       then 0.00215 * effectiveA80min A80 mopt + 0.25 +
            0.00285 * effectiveA80min A80 mopt * t
       else 0.005 * effectiveA80min A80 mopt + 0.25) := by
  cases mopt <;>
    simp only [FLCPredictor.init, calculate_BI_point, effectiveA80min, ite_self] <;>
    exact ⟨trivial, trivial⟩

/-- C4 witness: the BI point at the reference input with a supplied literal
zero `A80min`, exercising the falsy-zero fallback to `A80`. -/
theorem C4_BI_point_witness :
    (FLCPredictor.init 40.8 1.769 1.661 2.225 1.2 (some 0)).BI.eps1 =
      (FLCPredictor.init 40.8 1.769 1.661 2.225 1.2 (some 0)).BI.eps2 ∧
    (FLCPredictor.init 40.8 1.769 1.661 2.225 1.2 (some 0)).BI.eps1 =
      (if (1.2 : ℝ) ≤ 1.5 - (0.00215 * effectiveA80min 40.8 (some 0)) /
            (0.6 + 0.00285 * effectiveA80min 40.8 (some 0))
       then 0.00215 * effectiveA80min 40.8 (some 0) + 0.25 +
            0.00285 * effectiveA80min 40.8 (some 0) * 1.2
       else 0.005 * effectiveA80min 40.8 (some 0) + 0.25) :=
  C4_BI_point 40.8 1.769 1.661 2.225 1.2 (some 0)
    (by refine ⟨?_, ?_, ?_, ?_, ?_⟩ <;> norm_num)

/-- C5: for every valid input, `IM.eps2 = 0.75 * IM.eps1`, and `eps1` follows
the two-regime formula in `A80` (not `A80min`), with the boundary `t = t_trans`
taking the thin-sheet branch. -/
theorem C5_IM_point (A80 r0 r45 r90 t : ℝ) (mopt : Option ℝ)
    (h : validInput A80 r0 r45 r90 t) :
    (FLCPredictor.init A80 r0 r45 r90 t mopt).IM.eps2 =
      0.75 * (FLCPredictor.init A80 r0 r45 r90 t mopt).IM.eps1 ∧
    (FLCPredictor.init A80 r0 r45 r90 t mopt).IM.eps1 =
      (if t ≤ 1.5 - (0.00215 * A80) / (0.6 + 0.00285 * A80)
       then 0.0062 * A80 + 0.18 + 0.0027 * A80 * (t - 1)
       else 0.0062 * A80 + 0.18) :=
  ⟨rfl, rfl⟩

/-- C5 witness: the IM point relations at the reference input. -/
theorem C5_IM_point_witness :
    (FLCPredictor.init 40.8 1.769 1.661 2.225 1.2 none).IM.eps2 =
      0.75 * (FLCPredictor.init 40.8 1.769 1.661 2.225 1.2 none).IM.eps1 ∧
    (FLCPredictor.init 40.8 1.769 1.661 2.225 1.2 none).IM.eps1 =
      (if (1.2 : ℝ) ≤ 1.5 - (0.00215 * 40.8) / (0.6 + 0.00285 * 40.8)
       then 0.0062 * 40.8 + 0.18 + 0.0027 * 40.8 * (1.2 - 1)
       else 0.0062 * 40.8 + 0.18) :=
  C5_IM_point 40.8 1.769 1.661 2.225 1.2 none
    (by refine ⟨?_, ?_, ?_, ?_, ?_⟩ <;> norm_num)

/-- C3: for every valid input, the PS point has minor strain exactly zero and
major strain `0.0084*A80 + 0.0017*A80*(t-1)`. -/
theorem C3_PS_point (A80 r0 r45 r90 t : ℝ) (mopt : Option ℝ)
    (h : validInput A80 r0 r45 r90 t) :
    (FLCPredictor.init A80 r0 r45 r90 t mopt).PS.eps2 = 0 ∧
    (FLCPredictor.init A80 r0 r45 r90 t mopt).PS.eps1 =
      0.0084 * A80 + 0.0017 * A80 * (t - 1) :=
  ⟨rfl, rfl⟩

/-- C3 witness: the reference input `A80=40.8, t=1.2` is valid and its PS point
is `(0, 0.0084*40.8 + 0.0017*40.8*(1.2-1))`. -/
theorem C3_PS_point_witness :
    (FLCPredictor.init 40.8 1.769 1.661 2.225 1.2 none).PS.eps2 = 0 ∧
    (FLCPredictor.init 40.8 1.769 1.661 2.225 1.2 none).PS.eps1 =
      0.0084 * 40.8 + 0.0017 * 40.8 * (1.2 - 1) :=
  C3_PS_point 40.8 1.769 1.661 2.225 1.2 none
    (by constructor <;> norm_num)

/-- C10: the three TE strain components cancel algebraically: for every valid
input, `eps1_TE + eps2_TE + eps3_TE = 0` exactly. -/
theorem C10_TE_incompressibility (A80 r t : ℝ)
    (hA : 0 < A80) (hr : 0 < r) (ht : 0 < t) :
    (calculate_TE_point A80 r t).eps1 + (calculate_TE_point A80 r t).eps2 +
      TE_eps3 A80 r t = 0 := by
  simp only [calculate_TE_point, TE_eps3]
  ring

/-- C10 witness: the cancellation at the reference input
`A80 = 40.8, r = 1.829, t = 1.2`. -/
theorem C10_TE_incompressibility_witness :
    (calculate_TE_point 40.8 1.829 1.2).eps1 +
      (calculate_TE_point 40.8 1.829 1.2).eps2 + TE_eps3 40.8 1.829 1.2 = 0 :=
  C10_TE_incompressibility 40.8 1.829 1.2 (by norm_num) (by norm_num) (by norm_num)

/-- C6 counterexample: the two thickness-regime branches do NOT agree at the
transition thickness.  At `A80 = A80min = 40.8` and `t = t_trans` the BI
formula (thin-sheet branch) exceeds the thick-sheet value — the value the same
formula returns at any `t > t_trans`, e.g. `t = 1.5` — by more than `1/100`,
and likewise for IM; far beyond any floating-point tolerance. -/
theorem C6_counterexample :
    (calculate_BI_point 40.8 (1.5 - (0.00215 * 40.8) / (0.6 + 0.00285 * 40.8))
        (some 40.8)).eps1 -
      (calculate_BI_point 40.8 1.5 (some 40.8)).eps1 > 1 / 100 ∧
    (calculate_IM_point 40.8
        (1.5 - (0.00215 * 40.8) / (0.6 + 0.00285 * 40.8))).eps1 -
      (calculate_IM_point 40.8 1.5).eps1 > 1 / 100 := by
  norm_num [calculate_BI_point, calculate_IM_point]

/-- C6 amended: at `t` exactly equal to the transition thickness the two
branches of the BI (resp. IM) formula differ by `0.00285*A80min*(t_trans - 1)`
(resp. `0.0027*A80*(t_trans - 1)`), which is nonzero unless `t_trans = 1`;
the point formulas are discontinuous at the regime boundary. -/
theorem C6_branch_gap (A80 m : ℝ) (hA : 0 < A80) (hm : 0 < m) :
    (calculate_BI_point A80 (1.5 - (0.00215 * m) / (0.6 + 0.00285 * m))
        (some m)).eps1 - (0.005 * m + 0.25) =
      0.00285 * m * ((1.5 - (0.00215 * m) / (0.6 + 0.00285 * m)) - 1) ∧
    (calculate_IM_point A80
        (1.5 - (0.00215 * A80) / (0.6 + 0.00285 * A80))).eps1 -
      (0.0062 * A80 + 0.18) =
      0.0027 * A80 * ((1.5 - (0.00215 * A80) / (0.6 + 0.00285 * A80)) - 1) := by
  have hm0 : m ≠ 0 := ne_of_gt hm
  constructor
  · simp only [calculate_BI_point, if_neg hm0, if_pos le_rfl]
    ring
  · simp only [calculate_IM_point, if_pos le_rfl]
    ring

/-- C6 amended, witness: the branch gap identity at `A80 = A80min = 40.8`. -/
theorem C6_branch_gap_witness :
    (calculate_BI_point 40.8 (1.5 - (0.00215 * 40.8) / (0.6 + 0.00285 * 40.8))
        (some 40.8)).eps1 - (0.005 * 40.8 + 0.25) =
      0.00285 * 40.8 * ((1.5 - (0.00215 * 40.8) / (0.6 + 0.00285 * 40.8)) - 1) ∧
    (calculate_IM_point 40.8
        (1.5 - (0.00215 * 40.8) / (0.6 + 0.00285 * 40.8))).eps1 -
      (0.0062 * 40.8 + 0.18) =
      0.0027 * 40.8 * ((1.5 - (0.00215 * 40.8) / (0.6 + 0.00285 * 40.8)) - 1) :=
  C6_branch_gap 40.8 40.8 (by norm_num) (by norm_num)

/-- The `i`-th sample of `linspace a b n`, accessed with default `0`. -/
theorem linspace_getD (a b : ℝ) (n i : ℕ) (h : i < n) :
    (linspace a b n).getD i 0 = a + (i : ℝ) * (b - a) / ((n : ℝ) - 1) := by
  have hlen : i < (linspace a b n).length := by
    rw [linspace, List.length_map, List.length_range]
    exact h
  rw [List.getD_eq_getElem _ _ hlen]
  simp only [linspace, List.getElem_map, List.getElem_range]

/-- `linspace a b n` has exactly `n` samples. -/
theorem linspace_length (a b : ℝ) (n : ℕ) : (linspace a b n).length = n := by
  rw [linspace, List.length_map, List.length_range]

/-- C7: each extrapolation segment consists of 50 evenly spaced x-samples;
the left segment runs from `floor(10*x_TE)/10 - 0.1` to `x_TE`, the right
segment from `x_BI` to `ceil(10*x_BI)/10 + 0.1`, and every y-value is
`slope * x + intercept` of the corresponding end segment's line. -/
theorem C7_extrapolation_sampling (x0 y0 x1 y1 x2 y2 x3 y3 : ℝ) :
    (extrapolate_FLC_dynamically x0 y0 x1 y1 x2 y2 x3 y3).1.1.length = 50 ∧
    (extrapolate_FLC_dynamically x0 y0 x1 y1 x2 y2 x3 y3).1.2.length = 50 ∧
    (extrapolate_FLC_dynamically x0 y0 x1 y1 x2 y2 x3 y3).2.1.length = 50 ∧
    (extrapolate_FLC_dynamically x0 y0 x1 y1 x2 y2 x3 y3).2.2.length = 50 ∧
    (extrapolate_FLC_dynamically x0 y0 x1 y1 x2 y2 x3 y3).1.1.getD 0 0 =
      (⌊x0 * 10⌋ : ℝ) / 10 - 0.1 ∧
    (extrapolate_FLC_dynamically x0 y0 x1 y1 x2 y2 x3 y3).1.1.getD 49 0 = x0 ∧
    (extrapolate_FLC_dynamically x0 y0 x1 y1 x2 y2 x3 y3).2.1.getD 0 0 = x3 ∧
    (extrapolate_FLC_dynamically x0 y0 x1 y1 x2 y2 x3 y3).2.1.getD 49 0 =
      (⌈x3 * 10⌉ : ℝ) / 10 + 0.1 ∧
    (∀ i : Fin 49,
      (extrapolate_FLC_dynamically x0 y0 x1 y1 x2 y2 x3 y3).1.1.getD (i.val + 1) 0 -
        (extrapolate_FLC_dynamically x0 y0 x1 y1 x2 y2 x3 y3).1.1.getD i.val 0 =
        (x0 - ((⌊x0 * 10⌋ : ℝ) / 10 - 0.1)) / 49) ∧
    (∀ i : Fin 49,
      (extrapolate_FLC_dynamically x0 y0 x1 y1 x2 y2 x3 y3).2.1.getD (i.val + 1) 0 -
        (extrapolate_FLC_dynamically x0 y0 x1 y1 x2 y2 x3 y3).2.1.getD i.val 0 =
        (((⌈x3 * 10⌉ : ℝ) / 10 + 0.1) - x3) / 49) ∧
    (extrapolate_FLC_dynamically x0 y0 x1 y1 x2 y2 x3 y3).1.2 =
      (extrapolate_FLC_dynamically x0 y0 x1 y1 x2 y2 x3 y3).1.1.map
        (fun x => (if x1 ≠ x0 then (y1 - y0) / (x1 - x0) else 0) * x +
          (y0 - (if x1 ≠ x0 then (y1 - y0) / (x1 - x0) else 0) * x0)) ∧
    (extrapolate_FLC_dynamically x0 y0 x1 y1 x2 y2 x3 y3).2.2 =
      (extrapolate_FLC_dynamically x0 y0 x1 y1 x2 y2 x3 y3).2.1.map
        (fun x => (if x3 ≠ x2 then (y3 - y2) / (x3 - x2) else 0) * x +
          (y3 - (if x3 ≠ x2 then (y3 - y2) / (x3 - x2) else 0) * x3)) := by
  set lstart : ℝ := (⌊x0 * 10⌋ : ℝ) / 10 - 0.1 with hls
  set rstop : ℝ := (⌈x3 * 10⌉ : ℝ) / 10 + 0.1 with hrs
  refine ⟨linspace_length _ _ 50, ?_, linspace_length _ _ 50, ?_, ?_, ?_, ?_, ?_,
    ?_, ?_, rfl, rfl⟩
  · show ((linspace lstart x0 50).map _).length = 50
    rw [List.length_map, linspace_length]
  · show ((linspace x3 rstop 50).map _).length = 50
    rw [List.length_map, linspace_length]
  · show (linspace lstart x0 50).getD 0 0 = lstart
    rw [linspace_getD _ _ 50 0 (by norm_num)]
    norm_num
  · show (linspace lstart x0 50).getD 49 0 = x0
    rw [linspace_getD _ _ 50 49 (by norm_num)]
    push_cast
    field_simp
    ring
  · show (linspace x3 rstop 50).getD 0 0 = x3
    rw [linspace_getD _ _ 50 0 (by norm_num)]
    norm_num
  · show (linspace x3 rstop 50).getD 49 0 = rstop
    rw [linspace_getD _ _ 50 49 (by norm_num)]
    push_cast
    field_simp
    ring
  · intro i
    show (linspace lstart x0 50).getD (i.val + 1) 0 -
        (linspace lstart x0 50).getD i.val 0 = (x0 - lstart) / 49
    rw [linspace_getD _ _ 50 (i.val + 1) (by omega), linspace_getD _ _ 50 i.val
      (by omega)]
    push_cast
    ring
  · intro i
    show (linspace x3 rstop 50).getD (i.val + 1) 0 -
        (linspace x3 rstop 50).getD i.val 0 = (rstop - x3) / 49
    rw [linspace_getD _ _ 50 (i.val + 1) (by omega), linspace_getD _ _ 50 i.val
      (by omega)]
    push_cast
    ring

/-- C8: when the two endpoint x-coordinates of a segment coincide, the slope
guard substitutes slope 0 and the whole extrapolated y-sequence is the flat
line through the outer point (`y_TE` on the left, `y_BI` on the right); no
division by zero and no error. -/
theorem C8_degenerate_guard (x0 y0 x1 y1 x2 y2 x3 y3 : ℝ) :
    (x1 = x0 →
      ∀ y ∈ (extrapolate_FLC_dynamically x0 y0 x1 y1 x2 y2 x3 y3).1.2, y = y0) ∧
    (x3 = x2 →
      ∀ y ∈ (extrapolate_FLC_dynamically x0 y0 x1 y1 x2 y2 x3 y3).2.2, y = y3) := by
  constructor
  · intro hx y hy
    subst hx
    simp only [extrapolate_FLC_dynamically, ne_eq, not_true_eq_false, if_false,
      List.mem_map] at hy
    obtain ⟨x, -, rfl⟩ := hy
    ring
  · intro hx y hy
    subst hx
    simp only [extrapolate_FLC_dynamically, ne_eq, not_true_eq_false, if_false,
      List.mem_map] at hy
    obtain ⟨x, -, rfl⟩ := hy
    ring

/-- C8 witness: degenerate segments on both sides (`x_PS = x_TE = 1`,
`x_BI = x_IM = 3`) give the flat lines `y = 2` and `y = 9`. -/
theorem C8_degenerate_guard_witness :
    (∀ y ∈ (extrapolate_FLC_dynamically 1 2 1 5 3 7 3 9).1.2, y = 2) ∧
    (∀ y ∈ (extrapolate_FLC_dynamically 1 2 1 5 3 7 3 9).2.2, y = 9) :=
  ⟨(C8_degenerate_guard 1 2 1 5 3 7 3 9).1 rfl,
   (C8_degenerate_guard 1 2 1 5 3 7 3 9).2 rfl⟩

/-- C9: point retrieval is idempotent and mutation-free: the method call
leaves the model unchanged, calling it twice yields the same value, and the
value lists the points in the fixed order TE, PS, IM, BI. -/
theorem C9_get_points_idempotent (m : FLCPredictor) :
    (get_FLC_pointsS m).2 = m ∧
    (get_FLC_pointsS ((get_FLC_pointsS m).2)).1 = (get_FLC_pointsS m).1 ∧
    (get_FLC_pointsS m).1 =
      [("TE", (m.TE.eps2, m.TE.eps1)), ("PS", (m.PS.eps2, m.PS.eps1)),
       ("IM", (m.IM.eps2, m.IM.eps1)), ("BI", (m.BI.eps2, m.BI.eps1))] :=
  ⟨rfl, rfl, rfl⟩

end

end FLD
